import Mathlib

/-!
Verification of the flexvolume CLI control-channel core of the repository
(`cmd` package in `src/pkg/operator/rgw/rgw.go`, lines 553-605): the channel
locator and RPC client constructor `getRPCClient`, the log forwarder `log`,
and the output capture scope `redirectStdout`.

The Go code is shallowly embedded as pure Lean functions over an explicit
system state `Sys` (process-global `os.Stdout`/`os.Stderr` handles, pipe
objects, bytes written to the real standard streams, issued RPC log calls)
and, for `getRPCClient`, a `World` (result of `os.Executable`, bound unix
socket listeners, open connections, dial attempts).  The temporal order of
the side-effecting steps of `redirectStdout` is recorded in an event trace so
that ordering properties (restoration versus close/drain/forward) are
provable.  The wrapped function `fn : func() error` is embedded as a `Prog`:
the list of writes it performs through the current `os.Stdout`/`os.Stderr`
globals, together with the error value it returns.
-/

set_option autoImplicit false

namespace Rook

/-- Byte sequences (contents of streams, pipes and log messages). -/
abbrev Bytes := List Nat

/-- File handles (`*os.File` identities).  Handle `1` is the real standard
output object of the process, handle `2` the real standard error; pipe ends
are allocated at `3` and above.  `0` stands for the `nil` file returned by a
failed `os.Pipe` (writes/closes on it error out and the error is discarded,
reads yield nothing). -/
abbrev Fd := Nat

/-- Go `error` values: either a leaf error or one built by `fmt.Errorf`
formatting a message around an underlying cause. -/
inductive GoError where
  | base (msg : String)
  | errorf (msg : String) (cause : GoError)
deriving DecidableEq, Repr

/-- The `flexvolume.LogMessage` payload sent to `FlexvolumeController.Log`
(rgw.go lines 575-578). -/
structure LogMessage where
  message : Bytes
  isError : Bool
deriving DecidableEq, Repr

/-- Events recording the temporal order of the side-effecting steps of
`redirectStdout`: assignments to the process-global `os.Stdout`/`os.Stderr`,
closing a pipe write end, draining a pipe read end, and issuing the RPC log
call. -/
inductive Event where
  | assignStdout (fd : Fd)
  | assignStderr (fd : Fd)
  | closeWrite (fd : Fd)
  | drainRead (fd : Fd) (bs : Bytes)
  | logCall (message : Bytes) (isError : Bool)
deriving DecidableEq, Repr

/-- An in-memory pipe created by `os.Pipe()`: read-end handle, write-end
handle, buffered bytes, and whether the write end has been closed. -/
structure Pipe where
  rfd : Nat
  wfd : Nat
  data : Bytes
  wClosed : Bool
deriving DecidableEq, Repr

/-- Process state as seen by `redirectStdout`: the mutable globals
`os.Stdout` and `os.Stderr`, the pipe objects that exist, the bytes that have
reached the real standard output (handle 1) and real standard error
(handle 2), whether the next `os.Pipe()` call fails, the `LogMessage` RPC
calls issued so far over the control channel, and the event trace. -/
structure Sys where
  stdout : Nat
  stderr : Nat
  nextFd : Nat
  pipes : List Pipe
  realOut : Bytes
  realErr : Bytes
  pipeFails : Bool
  logCalls : List LogMessage
  trace : List Event
deriving DecidableEq, Repr

/-- Writing `bs` through handle `fd` into the pipe list: the first pipe whose
write end is `fd` receives the bytes, unless its write end is closed (the
write then errors with EPIPE and the caller discards the error).  A handle
matching no pipe (e.g. the `nil` file of a failed `os.Pipe`) is a no-op:
the write error is discarded by every caller in the source. -/
def writePipes (fd : Fd) (bs : Bytes) : List Pipe → List Pipe
  | [] => []
  | p :: ps =>
    if p.wfd = fd then
      (if p.wClosed then p :: ps else { p with data := p.data ++ bs } :: ps)
    else p :: writePipes fd bs ps

/-- Write `bs` through handle `fd`: handle 1 appends to the real standard
output, handle 2 to the real standard error, any other handle is looked up
among the pipe write ends. -/
def writeFd (fd : Fd) (bs : Bytes) (s : Sys) : Sys :=
  if fd = 1 then { s with realOut := s.realOut ++ bs }
  else if fd = 2 then { s with realErr := s.realErr ++ bs }
  else { s with pipes := writePipes fd bs s.pipes }

/-- Mark the pipe whose write end is `fd` as closed (`w.Close()`); a handle
matching no pipe is a no-op (the close error is discarded in the source). -/
def closePipes (fd : Fd) : List Pipe → List Pipe
  | [] => []
  | p :: ps => if p.wfd = fd then { p with wClosed := true } :: ps else p :: closePipes fd ps

/-- The `w.Close()` call of rgw.go line 599, with its trace event. -/
def wClose (fd : Fd) (s : Sys) : Sys :=
  { s with pipes := closePipes fd s.pipes, trace := s.trace ++ [Event.closeWrite fd] }

/-- Bytes obtained by draining the read end `fd` to EOF: the buffered data of
the first pipe whose read end is `fd`; a handle matching no pipe yields
nothing (`io.Copy` from the `nil` file errors immediately, the error is
discarded at line 602 and the buffer stays empty). -/
def drainPipes (fd : Fd) : List Pipe → Bytes
  | [] => []
  | p :: ps => if p.rfd = fd then p.data else drainPipes fd ps

/-- The `io.Copy(&buf, r)` full drain of rgw.go lines 601-602, with its trace
event. -/
def drainFd (fd : Fd) (s : Sys) : Bytes × Sys :=
  (drainPipes fd s.pipes,
   { s with trace := s.trace ++ [Event.drainRead fd (drainPipes fd s.pipes)] })

/-- Assignment to the process-global `os.Stdout`, with its trace event. -/
def setStdout (fd : Fd) (s : Sys) : Sys :=
  { s with stdout := fd, trace := s.trace ++ [Event.assignStdout fd] }

/-- Assignment to the process-global `os.Stderr`, with its trace event. -/
def setStderr (fd : Fd) (s : Sys) : Sys :=
  { s with stderr := fd, trace := s.trace ++ [Event.assignStderr fd] }

/-- The `os.Pipe()` call of rgw.go line 588.  On success it returns fresh
read/write handles and registers the pipe; on failure it returns `nil`
handles (modelled as `0`) and an error.  The source discards the error
component in both cases (`r, w, _ := os.Pipe()`). -/
def osPipe (s : Sys) : (Fd × Fd × Option GoError) × Sys :=
  if s.pipeFails then
    ((0, 0, some (GoError.base "pipe2: too many open files")), s)
  else
    ((s.nextFd, s.nextFd + 1, none),
     { s with
        nextFd := s.nextFd + 2,
        pipes := { rfd := s.nextFd, wfd := s.nextFd + 1, data := [], wClosed := false } :: s.pipes })

/-- An established control-channel connection (`net.Conn` from a successful
`net.Dial`). -/
structure Conn where
  addr : String
deriving DecidableEq, Repr

/-- An `*rpc.Client`.  The `connected` flag abstracts the state of the peer:
`false` models an agent that has hung up, making every subsequent
`client.Call` return an error. -/
structure RpcClient where
  connected : Bool
deriving DecidableEq, Repr

/-- A synchronous `client.Call` carrying a `LogMessage`
(`client.Call("FlexvolumeController.Log", log, nil)`, rgw.go line 579).  The
call is always issued and recorded; it returns an error exactly when the peer
has disconnected. -/
def rpcCall (client : RpcClient) (m : LogMessage) (s : Sys) : Option GoError × Sys :=
  ((if client.connected then none else some (GoError.base "connection is shut down")),
   { s with
      logCalls := s.logCalls ++ [m],
      trace := s.trace ++ [Event.logCall m.message m.isError] })

/-- The log forwarder `log` of rgw.go lines 574-580: it wraps the message and
severity into a `LogMessage` and issues the RPC call, discarding the call's
error result entirely (the source ignores the return value of
`client.Call`), so it cannot raise. -/
def log (client : RpcClient) (message : Bytes) (isError : Bool) (s : Sys) : Sys :=
  (rpcCall client { message := message, isError := isError } s).2

/-- The wrapped function `fn : func() error`, embedded as the sequence of
writes it performs (each tagged `true` for a write through the current
`os.Stdout` global, `false` for one through `os.Stderr`) and the error value
it returns (`none` = `nil`). -/
structure Prog where
  writes : List (Bool × Bytes)
  result : Option GoError
deriving DecidableEq, Repr

/-- One write performed by the wrapped function: it goes through whatever the
process-global `os.Stdout`/`os.Stderr` currently designates. -/
def writeStep (s : Sys) (wr : Bool × Bytes) : Sys :=
  writeFd (if wr.1 then s.stdout else s.stderr) wr.2 s

/-- Executing the wrapped function: perform its writes through the current
globals and produce its error value. -/
def runProg (p : Prog) (s : Sys) : Option GoError × Sys :=
  (p.result, p.writes.foldl writeStep s)

/-- All bytes the wrapped function writes, in order. -/
def progBytes (p : Prog) : Bytes := (p.writes.map Prod.snd).flatten

/-- The output capture scope `redirectStdout` of rgw.go lines 583-605,
step by step in execution order: record the real handles; create the pipe
discarding its error; substitute the write end for both globals; run `fn`;
close the write end; drain the read end into the buffer; forward the buffer
with `isError = false`; finally the deferred block (lines 593-596) runs at
function return and restores the original handles — in Go, a `defer` executes
when the surrounding function returns, hence after the close, the drain and
the log call on the normal (non-panicking) path, which is the only path a
`func() error` takes. -/
def redirectStdout (client : RpcClient) (fn : Prog) (s : Sys) : Option GoError × Sys :=
  let oldStdout := s.stdout
  let oldStderr := s.stderr
  let pres := osPipe s
  let r := pres.1.1
  let w := pres.1.2.1
  let s1 := setStdout w pres.2
  let s2 := setStderr w s1
  let eres := runProg fn s2
  let s3 := wClose w eres.2
  let dres := drainFd r s3
  let s4 := log client dres.1 false dres.2
  let s5 := setStdout oldStdout s4
  let s6 := setStderr oldStderr s5
  (eres.1, s6)

end Rook

namespace Rook

/-!
Embedding of the Go standard-library `path` package functions used by
`getRPCClient` (`path.Dir`, `path.Join`, both defined via `path.Clean`),
translated from their source.
-/

/-- The backtracking step of Go `path.Clean`'s `..` handling
(`out.w--; for out.w > dotdot && out.index(out.w) != '/' { out.w-- }`),
on the reversed output buffer: pop the last character, and keep popping while
the buffer is longer than `dotdot` and the popped character is not a slash. -/
def outBacktrack (dotdot : Nat) : List Char → List Char
  | [] => []
  | c :: rest => if dotdot < rest.length ∧ c ≠ '/' then outBacktrack dotdot rest else rest

/-- The main loop of Go `path.Clean`, over the remaining input characters,
with the output buffer kept reversed.  `fuel` bounds the iteration count (the
loop consumes at least one input character per iteration, so an initial fuel
of the input length is exact). -/
def cleanLoop (rooted : Bool) : Nat → List Char → List Char → Nat → List Char
  | 0, _, outRev, _ => outRev
  | _ + 1, [], outRev, _ => outRev
  | fuel + 1, c :: rest, outRev, dotdot =>
    if c = '/' then
      cleanLoop rooted fuel rest outRev dotdot
    else if c = '.' ∧ (rest = [] ∨ rest.head? = some '/') then
      cleanLoop rooted fuel rest outRev dotdot
    else if c = '.' ∧ rest.head? = some '.' ∧
        (rest.tail.head? = none ∨ rest.tail.head? = some '/') then
      (if dotdot < outRev.length then
        cleanLoop rooted fuel rest.tail (outBacktrack dotdot outRev) dotdot
      else if rooted = false then
        (let outRev2 := if 0 < outRev.length then '.' :: '.' :: '/' :: outRev
                        else '.' :: '.' :: outRev
         cleanLoop rooted fuel rest.tail outRev2 outRev2.length)
      else
        cleanLoop rooted fuel rest.tail outRev dotdot)
    else
      (let sep : List Char :=
        if (rooted = true ∧ outRev.length ≠ 1) ∨ (rooted = false ∧ outRev.length ≠ 0)
        then ['/'] else []
       cleanLoop rooted fuel ((c :: rest).dropWhile (fun ch => ch ≠ '/'))
         (((c :: rest).takeWhile (fun ch => ch ≠ '/')).reverse ++ sep ++ outRev) dotdot)

/-- Go `path.Clean`: lexical simplification of a slash-separated path. -/
def cleanPath (p : String) : String :=
  match p.data with
  | [] => "."
  | '/' :: rest =>
    (let outRev := cleanLoop true rest.length rest ['/'] 1
     if outRev = [] then "." else String.mk outRev.reverse)
  | c :: rest =>
    (let outRev := cleanLoop false (c :: rest).length (c :: rest) [] 0
     if outRev = [] then "." else String.mk outRev.reverse)

/-- Index of the last slash of the character list, as in Go
`strings.LastIndex(path, "/")` (`none` when there is no slash). -/
def lastSlashIdx (cs : List Char) : Option Nat :=
  (cs.reverse.findIdx? (fun c => c = '/')).map (fun j => cs.length - 1 - j)

/-- Go `path.Dir`: everything up to and including the final slash, cleaned;
`.` when the path contains no slash. -/
def pathDir (p : String) : String :=
  match lastSlashIdx p.data with
  | none => cleanPath ""
  | some i => cleanPath (String.mk (p.data.take (i + 1)))

/-- The buffer-building loop of Go `path.Join`: skip leading empty elements,
separate the rest with single slashes. -/
def joinBuf : List String → List Char → List Char
  | [], buf => buf
  | e :: rest, buf =>
    if 0 < buf.length ∨ e ≠ "" then
      joinBuf rest (buf ++ (if 0 < buf.length then ['/'] else []) ++ e.data)
    else joinBuf rest buf

/-- Go `path.Join`: empty when every element is empty, otherwise the slash
join of the elements, cleaned. -/
def pathJoin (elems : List String) : String :=
  if (elems.map String.length).sum = 0 then "" else cleanPath (String.mk (joinBuf elems []))

/-- Modelled from the spec: the fixed rendezvous socket file name
`flexvolume.UnixSocketName`.  The constant's defining package is not under
`src/`; the source comment at rgw.go line 559 shows the resulting full path
ending in `.rook.sock`, and the spec calls it the "fixed socket file name". -/
def UnixSocketName : String := ".rook.sock"

/-- The channel address computed at rgw.go line 559:
`path.Join(path.Dir(ex), path.Join(flexvolume.UnixSocketName))`. -/
def unixSocketFilePath (ex : String) : String :=
  pathJoin [pathDir ex, pathJoin [UnixSocketName]]

deriving instance DecidableEq for Except

/-- The world `getRPCClient` interacts with: the result of `os.Executable()`
(an error when the runtime cannot resolve its own binary path), the caller's
working directory (present only so that independence from it is statable; no
operation consults it), the unix socket paths with a bound listener, the
connections opened so far, and how many dial attempts have been made. -/
structure World where
  executable : Except GoError String
  cwd : String
  listening : List String
  openConns : List Conn
  dialAttempts : Nat
deriving DecidableEq, Repr

/-- `net.Dial(network, address)`: counts the attempt; succeeds and registers
an open connection exactly when a unix listener is bound at the address,
otherwise fails with the connect error and opens nothing. -/
def netDial (network address : String) (w : World) : Except GoError Conn × World :=
  let w1 : World := { w with dialAttempts := w.dialAttempts + 1 }
  if network = "unix" ∧ address ∈ w1.listening then
    (Except.ok { addr := address },
     { w1 with openConns := w1.openConns ++ [{ addr := address }] })
  else
    (Except.error (GoError.base
      ("dial " ++ network ++ " " ++ address ++ ": connect: no such file or directory")), w1)

/-- `rpc.NewClient(conn)`: wraps an established connection. -/
def rpcNewClient (_conn : Conn) : RpcClient := { connected := true }

/-- `getRPCClient` of rgw.go lines 553-565: resolve the executable path
(failing with the locator error wrapping the cause), compute the socket
address next to the executable, dial it (failing with the connection error
wrapping the cause), and wrap the connection into an RPC client. -/
def getRPCClient (w : World) : Except GoError RpcClient × World :=
  match w.executable with
  | Except.error err =>
    (Except.error (GoError.errorf "error getting path of the Rook flexvolume driver" err), w)
  | Except.ok ex =>
    let unixSocketFile := unixSocketFilePath ex
    match netDial "unix" unixSocketFile w with
    | (Except.error err, w1) =>
      (Except.error (GoError.errorf ("error connecting to socket " ++ unixSocketFile) err), w1)
    | (Except.ok conn, w1) => (Except.ok (rpcNewClient conn), w1)

/-- Does the event close a pipe write end? -/
def isCloseEvent : Event → Bool
  | Event.closeWrite _ => true
  | _ => false

/-- Formalisation of the ordering the spec asserts for the capture scope:
before the first close of a pipe write end in the trace (and hence before the
drain and the forward, which can only follow the close), the original
standard-output handle has already been assigned back.  Vacuously `true`
when no close happens. -/
def restoredBeforeClose (oldOut : Nat) (tr : List Event) : Bool :=
  match tr.findIdx? isCloseEvent with
  | none => true
  | some j => (tr.take j).any (fun ev => decide (ev = Event.assignStdout oldOut))

/-- A start state: the globals designate the real standard streams (handles
1 and 2), fresh handles are allocated from 3, nothing has been captured,
written or logged. -/
def sys0 : Sys :=
  { stdout := 1, stderr := 2, nextFd := 3, pipes := [], realOut := [], realErr := [],
    pipeFails := false, logCalls := [], trace := [] }

/-- The start state in a process whose next `os.Pipe()` call fails. -/
def sysFail : Sys := { sys0 with pipeFails := true }

/-- A client whose agent peer is up. -/
def client0 : RpcClient := { connected := true }

/-- A client whose agent peer has hung up. -/
def clientDown : RpcClient := { connected := false }

/-- A wrapped function that writes on standard output then standard error
and succeeds. -/
def fn0 : Prog := { writes := [(true, [104, 105]), (false, [33])], result := none }

/-- A wrapped function that writes a diagnostic and then fails. -/
def fnErr : Prog :=
  { writes := [(true, [101, 114, 114])], result := some (GoError.base "mount failed") }

/-- The executable path of the installed flexvolume driver binary (the
deployment location shown in the source comment at rgw.go line 559). -/
def exe0 : String := "/usr/libexec/kubernetes/kubelet-plugins/volume/exec/rook.io~rook/rook"

/-- A world where the executable path resolves but no agent socket is bound
anywhere. -/
def w0 : World :=
  { executable := Except.ok exe0, cwd := "/root", listening := [], openConns := [],
    dialAttempts := 0 }

/-- A world where the runtime cannot resolve its own executable path. -/
def wBad : World :=
  { executable := Except.error (GoError.base "cannot resolve executable path"), cwd := "/root",
    listening := [], openConns := [], dialAttempts := 0 }

/-!
Helper lemmas: which state fields each operation leaves untouched, and the
exact effect of a run of `redirectStdout`.
-/

theorem writeFd_stdout (fd : Fd) (bs : Bytes) (s : Sys) : (writeFd fd bs s).stdout = s.stdout := by
  unfold writeFd; split_ifs <;> rfl

theorem writeFd_stderr (fd : Fd) (bs : Bytes) (s : Sys) : (writeFd fd bs s).stderr = s.stderr := by
  unfold writeFd; split_ifs <;> rfl

theorem writeFd_nextFd (fd : Fd) (bs : Bytes) (s : Sys) : (writeFd fd bs s).nextFd = s.nextFd := by
  unfold writeFd; split_ifs <;> rfl

theorem writeFd_logCalls (fd : Fd) (bs : Bytes) (s : Sys) :
    (writeFd fd bs s).logCalls = s.logCalls := by
  unfold writeFd; split_ifs <;> rfl

theorem writeFd_trace (fd : Fd) (bs : Bytes) (s : Sys) : (writeFd fd bs s).trace = s.trace := by
  unfold writeFd; split_ifs <;> rfl

theorem foldlWrite_stdout (ws : List (Bool × Bytes)) (s : Sys) :
    (ws.foldl writeStep s).stdout = s.stdout := by
  induction ws generalizing s with
  | nil => rfl
  | cons wr tl ih => rw [List.foldl_cons, ih, writeStep, writeFd_stdout]

theorem foldlWrite_stderr (ws : List (Bool × Bytes)) (s : Sys) :
    (ws.foldl writeStep s).stderr = s.stderr := by
  induction ws generalizing s with
  | nil => rfl
  | cons wr tl ih => rw [List.foldl_cons, ih, writeStep, writeFd_stderr]

theorem foldlWrite_logCalls (ws : List (Bool × Bytes)) (s : Sys) :
    (ws.foldl writeStep s).logCalls = s.logCalls := by
  induction ws generalizing s with
  | nil => rfl
  | cons wr tl ih => rw [List.foldl_cons, ih, writeStep, writeFd_logCalls]

theorem foldlWrite_trace (ws : List (Bool × Bytes)) (s : Sys) :
    (ws.foldl writeStep s).trace = s.trace := by
  induction ws generalizing s with
  | nil => rfl
  | cons wr tl ih => rw [List.foldl_cons, ih, writeStep, writeFd_trace]

/-- During the capture window both globals point at the write end of the
fresh pipe sitting at the head of the pipe list, so the wrapped function's
writes accumulate, in order, in that pipe's buffer and nothing else of the
state changes. -/
theorem foldlWrite_capture (ws : List (Bool × Bytes)) (s : Sys) (p : Pipe) (rest : List Pipe)
    (hout : s.stdout = p.wfd) (herr : s.stderr = p.wfd) (hpipes : s.pipes = p :: rest)
    (hcl : p.wClosed = false) (hfd : 2 < p.wfd) :
    ws.foldl writeStep s =
      { s with pipes := { p with data := p.data ++ (ws.map Prod.snd).flatten } :: rest } := by
  induction ws generalizing s p with
  | nil =>
    simp only [List.foldl_nil, List.map_nil, List.flatten_nil, List.append_nil]
    cases s; cases p
    simp_all
  | cons wr tl ih =>
    rw [List.foldl_cons]
    have h1 : (if wr.1 then s.stdout else s.stderr) = p.wfd := by
      cases wr.1 <;> simp [hout, herr]
    have hstep : writeStep s wr = { s with pipes := { p with data := p.data ++ wr.2 } :: rest } := by
      unfold writeStep writeFd
      rw [h1, if_neg (show ¬(p.wfd = 1) by omega), if_neg (show ¬(p.wfd = 2) by omega), hpipes]
      unfold writePipes
      rw [if_pos rfl, hcl]
      simp
    rw [hstep]
    rw [ih { s with pipes := { p with data := p.data ++ wr.2 } :: rest }
          { p with data := p.data ++ wr.2 } hout herr rfl hcl hfd]
    simp

/-- The result value of `redirectStdout` is always exactly the wrapped
function's own result, whatever the client and state. -/
theorem redirectStdout_fst (client : RpcClient) (fn : Prog) (s : Sys) :
    (redirectStdout client fn s).1 = fn.result := rfl

/-- Exact effect of a run of `redirectStdout` when `os.Pipe()` succeeds:
the wrapped function's result is returned unchanged; the real standard
streams receive nothing; the drained capture equals exactly the bytes the
function wrote; one log call with `isError = false` is issued; and the trace
shows close, drain and forward happening after the substitution and before
the restoring assignments, which come last. -/
theorem redirectStdout_run (client : RpcClient) (fn : Prog) (s : Sys)
    (h3 : 3 ≤ s.nextFd) (hp : s.pipeFails = false) :
    redirectStdout client fn s =
      (fn.result,
        { s with
          nextFd := s.nextFd + 2,
          pipes := { rfd := s.nextFd, wfd := s.nextFd + 1, data := progBytes fn,
                     wClosed := true } :: s.pipes,
          logCalls := s.logCalls ++ [{ message := progBytes fn, isError := false }],
          trace := s.trace ++
            [Event.assignStdout (s.nextFd + 1), Event.assignStderr (s.nextFd + 1),
             Event.closeWrite (s.nextFd + 1),
             Event.drainRead s.nextFd (progBytes fn),
             Event.logCall (progBytes fn) false,
             Event.assignStdout s.stdout, Event.assignStderr s.stderr] }) := by
  unfold redirectStdout
  have hpipe : osPipe s =
      ((s.nextFd, s.nextFd + 1, none),
       { s with
          nextFd := s.nextFd + 2,
          pipes := { rfd := s.nextFd, wfd := s.nextFd + 1, data := [],
                     wClosed := false } :: s.pipes }) := by
    unfold osPipe; rw [if_neg (by simp [hp])]
  rw [hpipe]
  simp only [runProg]
  rw [foldlWrite_capture fn.writes _
        { rfd := s.nextFd, wfd := s.nextFd + 1, data := [], wClosed := false } s.pipes
        rfl rfl rfl rfl (show 2 < s.nextFd + 1 by omega)]
  simp [setStdout, setStderr, wClose, drainFd, log, rpcCall, closePipes, drainPipes, progBytes,
    List.append_assoc]

theorem writePipes_id (fd : Fd) (bs : Bytes) (ps : List Pipe) (h : ∀ p ∈ ps, p.wfd ≠ fd) :
    writePipes fd bs ps = ps := by
  induction ps with
  | nil => rfl
  | cons p rest ih =>
    unfold writePipes
    rw [if_neg (h p (by simp)), ih (fun q hq => h q (by simp [hq]))]

theorem closePipes_id (fd : Fd) (ps : List Pipe) (h : ∀ p ∈ ps, p.wfd ≠ fd) :
    closePipes fd ps = ps := by
  induction ps with
  | nil => rfl
  | cons p rest ih =>
    unfold closePipes
    rw [if_neg (h p (by simp)), ih (fun q hq => h q (by simp [hq]))]

theorem drainPipes_nil (fd : Fd) (ps : List Pipe) (h : ∀ p ∈ ps, p.rfd ≠ fd) :
    drainPipes fd ps = [] := by
  induction ps with
  | nil => rfl
  | cons p rest ih =>
    unfold drainPipes
    rw [if_neg (h p (by simp)), ih (fun q hq => h q (by simp [hq]))]

theorem foldlWrite_id (ws : List (Bool × Bytes)) (s : Sys)
    (hout : s.stdout = 0) (herr : s.stderr = 0) (h : ∀ p ∈ s.pipes, p.wfd ≠ 0) :
    ws.foldl writeStep s = s := by
  induction ws generalizing s with
  | nil => rfl
  | cons wr tl ih =>
    rw [List.foldl_cons]
    have h1 : (if wr.1 then s.stdout else s.stderr) = 0 := by
      cases wr.1 <;> simp [hout, herr]
    have hstep : writeStep s wr = s := by
      unfold writeStep writeFd
      rw [h1, if_neg (show ¬((0 : Nat) = 1) by decide),
        if_neg (show ¬((0 : Nat) = 2) by decide), writePipes_id 0 wr.2 s.pipes h]
    rw [hstep, ih s hout herr h]

/-- Exact effect of a run of `redirectStdout` when `os.Pipe()` fails (on a
state whose pipes do not use the `nil` handle `0`): the pipe-creation error
is discarded, the `nil` write end is still substituted for both globals, the
close and the (empty) drain still happen, one log call with the empty message
and `isError = false` is still issued, the wrapped function's result is
returned unchanged, and the handles are restored. -/
theorem redirectStdout_pipeFail_run (client : RpcClient) (fn : Prog) (s : Sys)
    (hp : s.pipeFails = true)
    (hw : ∀ p ∈ s.pipes, p.wfd ≠ 0) (hr : ∀ p ∈ s.pipes, p.rfd ≠ 0) :
    redirectStdout client fn s =
      (fn.result,
        { s with
          logCalls := s.logCalls ++ [{ message := [], isError := false }],
          trace := s.trace ++
            [Event.assignStdout 0, Event.assignStderr 0,
             Event.closeWrite 0, Event.drainRead 0 [],
             Event.logCall [] false,
             Event.assignStdout s.stdout, Event.assignStderr s.stderr] }) := by
  unfold redirectStdout
  have hpipe : osPipe s = ((0, 0, some (GoError.base "pipe2: too many open files")), s) := by
    unfold osPipe; rw [if_pos (by simp [hp])]
  rw [hpipe]
  simp only [runProg]
  rw [foldlWrite_id fn.writes _ rfl rfl (by simpa [setStdout, setStderr] using hw)]
  simp only [setStdout, setStderr, wClose, drainFd, log, rpcCall]
  rw [closePipes_id 0 _ (by simpa using hw), drainPipes_nil 0 _ (by simpa using hr)]
  simp [List.append_assoc]

theorem osPipe_logCalls (s : Sys) : ((osPipe s).2).logCalls = s.logCalls := by
  unfold osPipe; split <;> rfl

/-!
The claims.
-/

/-- Claim C1, counterexample.  The claim states that in `redirectStdout` the
original handles are restored on every exit path before anything else is
done, with the close of the pipe write end, the drain and the forwarding all
happening after that restoration.  On the concrete run of a function that
writes and succeeds, the trace shows a close of the pipe write end that is
preceded by no assignment of the original standard-output handle: the
restoration (a Go `defer`) actually runs last, after close, drain and
forward, so the claimed ordering is false. -/
theorem C1_restore_before_close_cex :
    restoredBeforeClose sys0.stdout (redirectStdout client0 fn0 sys0).2.trace = false := by
  decide

/-- Claim C1, amended.  On every exit path the original standard-output and
standard-error handles are restored before `redirectStdout` returns, but the
restoration is a deferred block that runs last: the close of the pipe's
write end, the full drain of the read end, and the forwarding of the
captured text all happen before the restoring assignments, which are the
final two events of the invocation. -/
theorem C1_restoration_runs_last (client : RpcClient) (fn : Prog) (s : Sys)
    (h3 : 3 ≤ s.nextFd) (hp : s.pipeFails = false) :
    (redirectStdout client fn s).2.stdout = s.stdout ∧
    (redirectStdout client fn s).2.stderr = s.stderr ∧
    (redirectStdout client fn s).2.trace = s.trace ++
      [Event.assignStdout (s.nextFd + 1), Event.assignStderr (s.nextFd + 1),
       Event.closeWrite (s.nextFd + 1),
       Event.drainRead s.nextFd (progBytes fn),
       Event.logCall (progBytes fn) false,
       Event.assignStdout s.stdout, Event.assignStderr s.stderr] := by
  rw [redirectStdout_run client fn s h3 hp]
  exact ⟨rfl, rfl, rfl⟩

/-- Witness for the amended C1 at a concrete input. -/
theorem C1_restoration_runs_last_witness :
    3 ≤ sys0.nextFd ∧ sys0.pipeFails = false ∧
    ((redirectStdout client0 fn0 sys0).2.stdout = sys0.stdout ∧
     (redirectStdout client0 fn0 sys0).2.stderr = sys0.stderr ∧
     (redirectStdout client0 fn0 sys0).2.trace = sys0.trace ++
       [Event.assignStdout (sys0.nextFd + 1), Event.assignStderr (sys0.nextFd + 1),
        Event.closeWrite (sys0.nextFd + 1),
        Event.drainRead sys0.nextFd (progBytes fn0),
        Event.logCall (progBytes fn0) false,
        Event.assignStdout sys0.stdout, Event.assignStderr sys0.stderr]) :=
  ⟨by decide, rfl, C1_restoration_runs_last client0 fn0 sys0 (by decide) rfl⟩

/-- Claim C2.  For every wrapped function that writes some sequence of bytes
through the (redirected) standard output and standard error globals and
returns without failing, the capture scope returns the function's `nil`
result unchanged, the forwarded capture buffer is exactly the written bytes
in order, and the real standard output and standard error receive zero
bytes. -/
theorem C2_capture_exact (client : RpcClient) (fn : Prog) (s : Sys)
    (h3 : 3 ≤ s.nextFd) (hp : s.pipeFails = false) (hok : fn.result = none) :
    (redirectStdout client fn s).1 = none ∧
    (redirectStdout client fn s).2.logCalls =
      s.logCalls ++ [{ message := progBytes fn, isError := false }] ∧
    (redirectStdout client fn s).2.realOut = s.realOut ∧
    (redirectStdout client fn s).2.realErr = s.realErr := by
  rw [redirectStdout_run client fn s h3 hp]
  exact ⟨hok, rfl, rfl, rfl⟩

/-- Witness for C2 at a concrete input. -/
theorem C2_capture_exact_witness :
    3 ≤ sys0.nextFd ∧ sys0.pipeFails = false ∧ fn0.result = none ∧
    ((redirectStdout client0 fn0 sys0).1 = none ∧
     (redirectStdout client0 fn0 sys0).2.logCalls =
       sys0.logCalls ++ [{ message := progBytes fn0, isError := false }] ∧
     (redirectStdout client0 fn0 sys0).2.realOut = sys0.realOut ∧
     (redirectStdout client0 fn0 sys0).2.realErr = sys0.realErr) :=
  ⟨by decide, rfl, rfl, C2_capture_exact client0 fn0 sys0 (by decide) rfl rfl⟩

/-- Claim C3.  After `redirectStdout` returns — whatever the wrapped
function did, whatever the client, and even if pipe creation failed — the
process's standard-output and standard-error handles are identical to the
handles recorded before the call: the deferred restoration assigns exactly
the recorded values on the single exit path the function has. -/
theorem C3_handles_restored (client : RpcClient) (fn : Prog) (s : Sys) :
    (redirectStdout client fn s).2.stdout = s.stdout ∧
    (redirectStdout client fn s).2.stderr = s.stderr :=
  ⟨rfl, rfl⟩

/-- Claim C4.  When the wrapped function fails, the scope still drains the
full captured output and forwards it over the control channel, and then
returns the original failure unchanged. -/
theorem C4_failure_still_forwards (client : RpcClient) (fn : Prog) (s : Sys) (e : GoError)
    (h3 : 3 ≤ s.nextFd) (hp : s.pipeFails = false) (herr : fn.result = some e) :
    (redirectStdout client fn s).1 = some e ∧
    (redirectStdout client fn s).2.logCalls =
      s.logCalls ++ [{ message := progBytes fn, isError := false }] := by
  rw [redirectStdout_run client fn s h3 hp]
  exact ⟨herr, rfl⟩

/-- Witness for C4 at a concrete failing function. -/
theorem C4_failure_still_forwards_witness :
    3 ≤ sys0.nextFd ∧ sys0.pipeFails = false ∧
    fnErr.result = some (GoError.base "mount failed") ∧
    ((redirectStdout client0 fnErr sys0).1 = some (GoError.base "mount failed") ∧
     (redirectStdout client0 fnErr sys0).2.logCalls =
       sys0.logCalls ++ [{ message := progBytes fnErr, isError := false }]) :=
  ⟨by decide, rfl, rfl,
   C4_failure_still_forwards client0 fnErr sys0 (GoError.base "mount failed") (by decide) rfl rfl⟩

/-- Claim C5.  The log-forwarding call is fire-and-forget: against a client
whose peer has disconnected the underlying RPC call does return an error,
but `log` discards that error entirely (its result is exactly the
post-call state, and it returns no error at all), and the result
`redirectStdout` reports is the wrapped function's own result regardless of
the client. -/
theorem C5_log_swallows_failure (client : RpcClient) (fn : Prog) (s : Sys)
    (m : Bytes) (b : Bool) (hdc : client.connected = false) :
    (rpcCall client { message := m, isError := b } s).1 =
      some (GoError.base "connection is shut down") ∧
    log client m b s = (rpcCall client { message := m, isError := b } s).2 ∧
    (redirectStdout client fn s).1 = fn.result := by
  refine ⟨?_, rfl, rfl⟩
  simp [rpcCall, hdc]

/-- Witness for C5 at a concrete disconnected client. -/
theorem C5_log_swallows_failure_witness :
    clientDown.connected = false ∧
    ((rpcCall clientDown { message := [104], isError := false } sys0).1 =
       some (GoError.base "connection is shut down") ∧
     log clientDown [104] false sys0 =
       (rpcCall clientDown { message := [104], isError := false } sys0).2 ∧
     (redirectStdout clientDown fn0 sys0).1 = fn0.result) :=
  ⟨rfl, C5_log_swallows_failure clientDown fn0 sys0 [104] false rfl⟩

/-- Claim C6.  When the executable path resolves but no listener is bound at
the rendezvous address, `getRPCClient` fails with the connection error
wrapping the underlying dial error, opens no connection (the world is
unchanged apart from the dial-attempt count), and dials exactly once —
no retry. -/
theorem C6_connection_error (w : World) (ex : String)
    (hex : w.executable = Except.ok ex)
    (hnl : unixSocketFilePath ex ∉ w.listening) :
    getRPCClient w =
      (Except.error (GoError.errorf ("error connecting to socket " ++ unixSocketFilePath ex)
        (GoError.base ("dial " ++ "unix" ++ " " ++ unixSocketFilePath ex ++
          ": connect: no such file or directory"))),
       { w with dialAttempts := w.dialAttempts + 1 }) := by
  unfold getRPCClient netDial
  rw [hex]
  simp [hex, hnl]

/-- Witness for C6 at a concrete world with no bound listener. -/
theorem C6_connection_error_witness :
    w0.executable = Except.ok exe0 ∧ unixSocketFilePath exe0 ∉ w0.listening ∧
    getRPCClient w0 =
      (Except.error (GoError.errorf ("error connecting to socket " ++ unixSocketFilePath exe0)
        (GoError.base ("dial " ++ "unix" ++ " " ++ unixSocketFilePath exe0 ++
          ": connect: no such file or directory"))),
       { w0 with dialAttempts := w0.dialAttempts + 1 }) :=
  ⟨rfl, by simp [w0], C6_connection_error w0 exe0 rfl (by simp [w0])⟩

/-- Claim C7.  The channel locator: when the executable path cannot be
resolved, `getRPCClient` fails with the locator error wrapping the cause and
touches nothing; the computation is independent of the caller's working
directory (changing only `cwd` changes nothing but the `cwd` carried in the
world); and on the installed driver path the computed channel address is the
executable's directory joined with the fixed rendezvous name. -/
theorem C7_locator_and_address (w w2 : World) (c : String) (e : GoError)
    (he : w.executable = Except.error e) :
    getRPCClient w =
      (Except.error (GoError.errorf "error getting path of the Rook flexvolume driver" e), w) ∧
    (getRPCClient { w2 with cwd := c }).1 = (getRPCClient w2).1 ∧
    (getRPCClient { w2 with cwd := c }).2 = { (getRPCClient w2).2 with cwd := c } ∧
    unixSocketFilePath exe0 =
      "/usr/libexec/kubernetes/kubelet-plugins/volume/exec/rook.io~rook/.rook.sock" := by
  have hmain : getRPCClient { w2 with cwd := c } =
      ((getRPCClient w2).1, { (getRPCClient w2).2 with cwd := c }) := by
    cases hv : w2.executable with
    | error e2 => unfold getRPCClient; simp [hv]
    | ok ex =>
      unfold getRPCClient netDial
      simp only [hv]
      by_cases hm : unixSocketFilePath ex ∈ w2.listening
      · simp [hm]
      · simp [hm]
  refine ⟨?_, ?_, ?_, by decide⟩
  · unfold getRPCClient; rw [he]
  · rw [hmain]
  · rw [hmain]

/-- Witness for C7 at a concrete unresolvable-executable world. -/
theorem C7_locator_and_address_witness :
    wBad.executable = Except.error (GoError.base "cannot resolve executable path") ∧
    (getRPCClient wBad =
      (Except.error (GoError.errorf "error getting path of the Rook flexvolume driver"
        (GoError.base "cannot resolve executable path")), wBad) ∧
     (getRPCClient { w0 with cwd := "/elsewhere" }).1 = (getRPCClient w0).1 ∧
     (getRPCClient { w0 with cwd := "/elsewhere" }).2 =
       { (getRPCClient w0).2 with cwd := "/elsewhere" } ∧
     unixSocketFilePath exe0 =
       "/usr/libexec/kubernetes/kubelet-plugins/volume/exec/rook.io~rook/.rook.sock") :=
  ⟨rfl, C7_locator_and_address wBad w0 "/elsewhere" (GoError.base "cannot resolve executable path")
    rfl⟩

/-- Claim C8.  Every invocation of the capture scope issues exactly one log
record over the control channel: exactly one `LogMessage` call is appended,
whatever the client, the wrapped function (including one that writes nothing,
so the captured output is empty) and the state — even when pipe creation
fails. -/
theorem C8_exactly_one_record (client : RpcClient) (fn : Prog) (s : Sys) :
    (redirectStdout client fn s).2.logCalls.length = s.logCalls.length + 1 := by
  simp [redirectStdout, log, rpcCall, drainFd, wClose, setStdout, setStderr, runProg,
    foldlWrite_logCalls, osPipe_logCalls]

/-- Claim C9.  The forwarded record always carries `isError = false`: the
severity flag is hard-coded at the call site and never reflects the wrapped
function's own result, which is returned unchanged alongside. -/
theorem C9_severity_always_false (client : RpcClient) (fn : Prog) (s : Sys)
    (h3 : 3 ≤ s.nextFd) (hp : s.pipeFails = false) :
    (redirectStdout client fn s).2.logCalls =
      s.logCalls ++ [{ message := progBytes fn, isError := false }] ∧
    (redirectStdout client fn s).1 = fn.result := by
  rw [redirectStdout_run client fn s h3 hp]
  exact ⟨rfl, rfl⟩

/-- Witness for C9 at a concrete failing function: the record is still
`isError = false` although the wrapped function returned an error. -/
theorem C9_severity_always_false_witness :
    3 ≤ sys0.nextFd ∧ sys0.pipeFails = false ∧
    ((redirectStdout client0 fnErr sys0).2.logCalls =
       sys0.logCalls ++ [{ message := progBytes fnErr, isError := false }] ∧
     (redirectStdout client0 fnErr sys0).1 = fnErr.result) :=
  ⟨by decide, rfl, C9_severity_always_false client0 fnErr sys0 (by decide) rfl⟩

/-- Claim C10.  `redirectStdout` discards the error of `os.Pipe()`: when
pipe creation fails it still substitutes the returned (invalid) write end
for both globals, still closes and drains it unconditionally (capturing
nothing), still forwards the empty record, and returns the wrapped
function's result — no error path exists for the failed pipe creation. -/
theorem C10_pipe_error_discarded (client : RpcClient) (fn : Prog) (s : Sys)
    (hp : s.pipeFails = true)
    (hw : ∀ p ∈ s.pipes, p.wfd ≠ 0) (hr : ∀ p ∈ s.pipes, p.rfd ≠ 0) :
    (redirectStdout client fn s).1 = fn.result ∧
    (redirectStdout client fn s).2.logCalls =
      s.logCalls ++ [{ message := [], isError := false }] ∧
    (redirectStdout client fn s).2.trace = s.trace ++
      [Event.assignStdout 0, Event.assignStderr 0, Event.closeWrite 0,
       Event.drainRead 0 [], Event.logCall [] false,
       Event.assignStdout s.stdout, Event.assignStderr s.stderr] := by
  rw [redirectStdout_pipeFail_run client fn s hp hw hr]
  exact ⟨rfl, rfl, rfl⟩

/-- Witness for C10 at a concrete state whose pipe creation fails. -/
theorem C10_pipe_error_discarded_witness :
    sysFail.pipeFails = true ∧
    ((redirectStdout client0 fn0 sysFail).1 = fn0.result ∧
     (redirectStdout client0 fn0 sysFail).2.logCalls =
       sysFail.logCalls ++ [{ message := [], isError := false }] ∧
     (redirectStdout client0 fn0 sysFail).2.trace = sysFail.trace ++
       [Event.assignStdout 0, Event.assignStderr 0, Event.closeWrite 0,
        Event.drainRead 0 [], Event.logCall [] false,
        Event.assignStdout sysFail.stdout, Event.assignStderr sysFail.stderr]) :=
  ⟨rfl, C10_pipe_error_discarded client0 fn0 sysFail rfl
    (by intro p hmem; cases hmem) (by intro p hmem; cases hmem)⟩

end Rook
